import Mathlib

set_option linter.unusedVariables false

/-!
Shallow embedding of the ExamamtEo backend (a small Express + PostgreSQL
resource-sharing server).  The repository contains two source files that are
near-duplicate variants of the same program:

* `src/unnamed/part_000` — referred to below with the suffix `P0`.  Its
  `/SrDashboard` route looks records up by `(username, password, subject)`,
  stores the supplied password verbatim in the `files` table, and appends the
  new drive link with `array_append`.  Its `/Jrdashboard` route accepts
  `seniorname` and/or `subjectname` and combines the filters with AND, and its
  `/explore` route optionally filters by `subjectname`.

* `src/server.js` — referred to below with the suffix `V1` (the file holds two
  concatenated variants; the second one carries the `/SrDashboard` and
  `/Jrdashboard` routes cited by the claims, and both halves share the same
  `/signup`, `/login` and unfiltered `/explore`).  Its `/SrDashboard` hashes
  the password before storing, looks records up by `(username, subject)` only,
  and on update *replaces* `file_paths` with the single new drive link.  Its
  `/Jrdashboard` reads only `seniorname` and its `/explore` ignores the query
  string entirely.

The `/signup` and `/login` handlers are textually identical in every variant,
so they are embedded once.

Databases are modelled as in-memory lists of rows; `db.query` faults (the
`catch` branches of the handlers) are modelled by an explicit `fault` flag on
the read-only handlers.  JavaScript's truthiness test `!x` on a request field
(which is either a string or `undefined`) is modelled by `falsy` on
`Option String`.
-/

/-- A row of the `users_auth` table: `(id, name, email, password, role)`;
the `password` column holds whatever string the handler stored there. -/
structure UserRow where
  id : Nat
  name : String
  email : String
  password : String
  role : String
  deriving DecidableEq, Repr

/-- A row of the `files` table:
`(id, username, password, file_paths, links, subject)`. -/
structure FileRow where
  id : Nat
  username : String
  password : String
  filePaths : List String
  links : String
  subject : String
  deriving DecidableEq, Repr

/-- The database state: the two tables, plus the next serial ids. -/
structure Db where
  users : List UserRow
  files : List FileRow
  nextUserId : Nat
  nextFileId : Nat
  deriving DecidableEq, Repr

/-- JavaScript truthiness of a request field: `!x` is `true` exactly when the
field is absent (`undefined`) or the empty string. -/
def falsy : Option String → Bool
  | none => true
  | some s => s == ""

/-- Modelled from the spec: the external one-way password-hashing capability
(`bcrypt.hash`, an out-of-scope collaborator per §1/§2 of the spec).  The spec
treats it as an opaque hash whose verification succeeds exactly when the
stored value is the hash of the supplied password. -/
def bcryptHash (p : String) : String := "$2b$10$" ++ p

/-- Modelled from the spec: `bcrypt.compare password stored` succeeds exactly
when `stored` is the hash of `password`. -/
def bcryptCompare (p stored : String) : Bool := stored == bcryptHash p

/-- Responses of `POST /signup`. -/
inductive SignupResp where
  | missing
  | duplicateEmail
  | created
  | serverError
  deriving DecidableEq, Repr

/-- HTTP status attached to each `/signup` response by the source. -/
def signupStatus : SignupResp → Nat
  | .missing => 400
  | .duplicateEmail => 400
  | .created => 201
  | .serverError => 500

/-- Responses of `POST /login`.  A successful login carries exactly the four
fields `id`, `name`, `email`, `role` that the handler copies into the JSON
body (`user: {id, name, email, role}`). -/
inductive LoginResp where
  | missing
  | notFound
  | wrongPassword
  | success (id : Nat) (name email role : String)
  | serverError
  deriving DecidableEq, Repr

/-- HTTP status attached to each `/login` response by the source. -/
def loginStatus : LoginResp → Nat
  | .missing => 400
  | .notFound => 400
  | .wrongPassword => 401
  | .success _ _ _ _ => 200
  | .serverError => 500

/-- Responses of `POST /SrDashboard`. -/
inductive PublishResp where
  | missing
  | saved (driveLink : String)
  | serverError
  deriving DecidableEq, Repr

/-- HTTP status attached to each `/SrDashboard` response by the source
(`res.json` without an explicit status defaults to 200). -/
def publishStatus : PublishResp → Nat
  | .missing => 400
  | .saved _ => 200
  | .serverError => 500

/-- Responses of the `GET /Jrdashboard` and `GET /explore` routes. -/
inductive SearchResp where
  | missingFilters
  | notFound
  | files (rows : List FileRow)
  | dbError
  deriving DecidableEq, Repr

/-- HTTP status attached to each search response by the source. -/
def searchStatus : SearchResp → Nat
  | .missingFilters => 400
  | .notFound => 404
  | .files _ => 200
  | .dbError => 500

/-- Route `POST /signup` (identical in both source files): reject if any field is
falsy, reject if a `users_auth` row already has the email, otherwise insert a
row whose password column is the bcrypt hash. -/
def signup (db : Db) (name email password role : Option String) :
    SignupResp × Db :=
  if falsy name || falsy email || falsy password || falsy role then
    (.missing, db)
  else
    let n := name.getD ""
    let e := email.getD ""
    let p := password.getD ""
    let r := role.getD ""
    if (db.users.filter (fun u => u.email == e)).length > 0 then
      (.duplicateEmail, db)
    else
      (.created,
        { db with
          users := db.users ++ [⟨db.nextUserId, n, e, bcryptHash p, r⟩],
          nextUserId := db.nextUserId + 1 })

/-- Route `POST /login` (identical in both source files): reject if a field is
falsy; look the user up by email (`rows[0]` of the SELECT); 400 if absent;
verify with `bcrypt.compare`; 401 on mismatch; on success return
`{id, name, email, role}`.  `fault` models `db.query` throwing inside the
`try` block. -/
def login (db : Db) (email password : Option String) (fault : Bool) :
    LoginResp × Db :=
  if falsy email || falsy password then
    (.missing, db)
  else if fault then
    (.serverError, db)
  else
    let e := email.getD ""
    let p := password.getD ""
    match db.users.filter (fun u => u.email == e) with
    | [] => (.notFound, db)
    | u :: _ =>
      if bcryptCompare p u.password then
        (.success u.id u.name u.email u.role, db)
      else
        (.wrongPassword, db)

/-- The `WHERE username = $1 AND password = $2 AND subject = $3` predicate of
`part_000`'s `/SrDashboard`. -/
def srMatchP0 (u p s : String) (f : FileRow) : Bool :=
  f.username == u && f.password == p && f.subject == s

/-- Route `POST /SrDashboard` of `part_000`: reject if any of the five fields is
falsy; look up by `(username, password, subject)`; if a row exists, run
`UPDATE ... SET file_paths = array_append(file_paths, driveLink),
links = OtherLink` on every matching row; otherwise insert
`(username, password, [driveLink], OtherLink, subject)` — the password is
stored verbatim, not hashed. -/
def srDashboardP0 (db : Db)
    (username password subject driveLink otherLink : Option String) :
    PublishResp × Db :=
  if falsy username || falsy password || falsy subject ||
      falsy driveLink || falsy otherLink then
    (.missing, db)
  else
    let u := username.getD ""
    let p := password.getD ""
    let s := subject.getD ""
    let d := driveLink.getD ""
    let o := otherLink.getD ""
    if (db.files.filter (srMatchP0 u p s)).length > 0 then
      (.saved d,
        { db with
          files := db.files.map fun f =>
            if srMatchP0 u p s f then
              { f with filePaths := f.filePaths ++ [d], links := o }
            else f })
    else
      (.saved d,
        { db with
          files := db.files ++ [⟨db.nextFileId, u, p, [d], o, s⟩],
          nextFileId := db.nextFileId + 1 })

/-- The `WHERE username = $1 AND subject = $2` predicate of `server.js`'s
`/SrDashboard`. -/
def srMatchV1 (u s : String) (f : FileRow) : Bool :=
  f.username == u && f.subject == s

/-- Route `POST /SrDashboard` of `server.js`: reject if any of the five fields is
falsy; hash the password; look up by `(username, subject)` only; if a row
exists, run `UPDATE ... SET file_paths = $1, links = $2` — binding the single
scalar `driveLink` to the `file_paths` column, so the stored collection is
replaced by the one new link; otherwise insert
`(username, hashedPassword, driveLink, OtherLink, subject)`. -/
def srDashboardV1 (db : Db)
    (username password subject driveLink otherLink : Option String) :
    PublishResp × Db :=
  if falsy username || falsy password || falsy subject ||
      falsy driveLink || falsy otherLink then
    (.missing, db)
  else
    let u := username.getD ""
    let p := password.getD ""
    let s := subject.getD ""
    let d := driveLink.getD ""
    let o := otherLink.getD ""
    let hashed := bcryptHash p
    if (db.files.filter (srMatchV1 u s)).length > 0 then
      (.saved d,
        { db with
          files := db.files.map fun f =>
            if srMatchV1 u s f then
              { f with filePaths := [d], links := o }
            else f })
    else
      (.saved d,
        { db with
          files := db.files ++ [⟨db.nextFileId, u, hashed, [d], o, s⟩],
          nextFileId := db.nextFileId + 1 })

/-- The dynamically built `WHERE` clause of `part_000`'s `/Jrdashboard`:
starting from `1=1`, `AND username = seniorname` is added only when
`seniorname` is truthy, and `AND subject = subjectname` only when
`subjectname` is truthy. -/
def jrMatchP0 (sn sub : Option String) (f : FileRow) : Bool :=
  (falsy sn || f.username == sn.getD "") &&
  (falsy sub || f.subject == sub.getD "")

/-- Route `GET /Jrdashboard` of `part_000`: 400 when both query parameters are
falsy; otherwise run the AND-combined query; 404 when no row matches. -/
def jrdashboardP0 (db : Db) (seniorname subjectname : Option String)
    (fault : Bool) : SearchResp × Db :=
  if falsy seniorname && falsy subjectname then
    (.missingFilters, db)
  else if fault then
    (.dbError, db)
  else
    let rows := db.files.filter (jrMatchP0 seniorname subjectname)
    if rows.length == 0 then (.notFound, db) else (.files rows, db)

/-- Route `GET /Jrdashboard` of `server.js`: the handler destructures only
`seniorname` from the query (`subjectname` is ignored), requires it, and
filters on the username alone. -/
def jrdashboardV1 (db : Db) (seniorname subjectname : Option String)
    (fault : Bool) : SearchResp × Db :=
  if falsy seniorname then
    (.missingFilters, db)
  else if fault then
    (.dbError, db)
  else
    let rows := db.files.filter fun f => f.username == seniorname.getD ""
    if rows.length == 0 then (.notFound, db) else (.files rows, db)

/-- The optional `WHERE subject = $1` clause of `part_000`'s `/explore`,
added only when `subjectname` is truthy. -/
def exploreMatchP0 (sub : Option String) (f : FileRow) : Bool :=
  falsy sub || f.subject == sub.getD ""

/-- Route `GET /explore` of `part_000`: no validation; `SELECT * FROM files` with
the subject clause added only when `subjectname` is truthy; 404 when the
result is empty. -/
def exploreP0 (db : Db) (subjectname : Option String) (fault : Bool) :
    SearchResp × Db :=
  if fault then
    (.dbError, db)
  else
    let rows := db.files.filter (exploreMatchP0 subjectname)
    if rows.length == 0 then (.notFound, db) else (.files rows, db)

/-- Route `GET /explore` of `server.js` (both halves): plain `SELECT * FROM files`,
never reading the query string; 404 when the table is empty. -/
def exploreV1 (db : Db) (subjectname : Option String) (fault : Bool) :
    SearchResp × Db :=
  if fault then
    (.dbError, db)
  else if db.files.length == 0 then
    (.notFound, db)
  else
    (.files db.files, db)

/-- The empty database. -/
def db0 : Db := ⟨[], [], 0, 0⟩

/-- A database holding one shared-link record for `("alice", "math")`. -/
def dbMath : Db := ⟨[], [⟨1, "alice", "pw", ["linkA"], "other1", "math"⟩], 0, 2⟩

/-- A database holding shared-link records for two different subjects. -/
def dbTwo : Db :=
  ⟨[], [⟨1, "ann", "p1", ["l1"], "o1", "math"⟩,
        ⟨2, "ben", "p2", ["l2"], "o2", "bio"⟩], 0, 3⟩

/-- A database holding one registered account (password stored hashed, as
`/signup` stores it). -/
def dbUser : Db :=
  ⟨[⟨1, "bob", "bob@x.com", bcryptHash "goodpw", "senior"⟩], [], 2, 0⟩

/-- Mapping a list that keeps every element on which `pred` is false
unchanged is the identity when `pred` holds nowhere on the list. -/
theorem map_keep_of_filter_nil {α : Type} (pred : α → Bool) (g : α → α)
    (l : List α) (h : l.filter pred = []) :
    (l.map fun a => if pred a then g a else a) = l := by
  induction l with
  | nil => rfl
  | cons x xs ih =>
    by_cases hx : pred x = true
    · simp [List.filter_cons, hx] at h
    · simp only [List.filter_cons, hx] at h
      simp only [List.map_cons, hx, if_false, Bool.false_eq_true, ih h]

/-- C2: the claim fails on the code. In `part_000`'s `/SrDashboard` the
client-supplied password is inserted verbatim into the `files` table (no
hashing), and the `SELECT *` of `/explore` then returns that row — including
its plaintext `password` column — in the response body.  This theorem
evaluates the publish handler at the failing input and shows both facts. -/
theorem srDashboardP0_stores_plaintext :
    ((srDashboardP0 db0 (some "alice") (some "secretpw") (some "math")
        (some "linkA") (some "other1")).2.files.map fun f => f.password) =
      ["secretpw"] ∧
    (exploreP0 (srDashboardP0 db0 (some "alice") (some "secretpw")
        (some "math") (some "linkA") (some "other1")).2 none false).1 =
      SearchResp.files [⟨0, "alice", "secretpw", ["linkA"], "other1", "math"⟩] := by
  exact ⟨by decide, by decide⟩

/-- C1 counterexample: in `server.js`'s `/SrDashboard`, two successive
publishes to the same `(owner, subjectKey)` with links `linkA` then `linkB`
leave the record's link collection as the single overwritten `["linkB"]`,
not `["linkA", "linkB"]` as the claim states. -/
theorem srDashboardV1_overwrite_counterexample :
    ((srDashboardV1 (srDashboardV1 db0 (some "alice") (some "pw")
        (some "math") (some "linkA") (some "other1")).2
      (some "alice") (some "pw") (some "math") (some "linkB")
        (some "other2")).2.files.map fun f => (f.filePaths, f.links)) =
      [(["linkB"], "other2")] ∧
    (["linkB"] : List String) ≠ ["linkA", "linkB"] := by
  exact ⟨by decide, by decide⟩

/-- C3 counterexample: in `part_000`'s `/SrDashboard` the lookup predicate is
`username AND password AND subject`, so two publishes with the same
`(owner, subjectKey)` but different supplied passwords create two records for
that pair — refuting "at most one record exists per (owner, subjectKey)". -/
theorem srDashboardP0_duplicate_rows_counterexample :
    ((srDashboardP0 (srDashboardP0 db0 (some "alice") (some "pw1")
        (some "math") (some "linkA") (some "other1")).2
      (some "alice") (some "pw2") (some "math") (some "linkB")
        (some "other2")).2.files.filter fun f =>
      f.username == "alice" && f.subject == "math").length = 2 := by
  decide

/-- C6 counterexample: `server.js`'s `/Jrdashboard` destructures only
`seniorname` from the query, so a request providing only `subjectname` is
rejected with the 400 validation error even though a matching record exists,
instead of returning the records matching the provided filter. -/
theorem jrdashboardV1_subject_only_counterexample :
    (jrdashboardV1 dbMath none (some "math") false).1 =
      SearchResp.missingFilters ∧
    searchStatus (jrdashboardV1 dbMath none (some "math") false).1 = 400 ∧
    dbMath.files.filter (fun f => f.subject == "math") ≠ [] := by
  exact ⟨by decide, by decide, by decide⟩

/-- C7 counterexample: `server.js`'s `/explore` never reads the query string,
so with `subjectname = "math"` it still returns every stored record,
including one whose subject is `"bio"` — not "exactly the records whose
subject equals the given value". -/
theorem exploreV1_ignores_filter_counterexample :
    (exploreV1 dbTwo (some "math") false).1 = SearchResp.files dbTwo.files ∧
    ∃ f ∈ dbTwo.files, f.subject ≠ "math" := by
  refine ⟨by decide, ⟨⟨2, "ben", "p2", ["l2"], "o2", "bio"⟩, by decide, by decide⟩⟩

/-- C9: in every endpoint's validation, a field equal to the empty string is
treated exactly like an absent field: JavaScript's `!field` is true for both
`""` and `undefined`, so the handler returns the same 400 validation response
in both cases, leaves the database untouched, and (since the response is a
constant, independent of the database) issues no query. -/
theorem empty_field_like_absent (db : Db) (a b c d : Option String)
    (fault : Bool) :
    (signup db (some "") b c d = (SignupResp.missing, db) ∧
     signup db none b c d = (SignupResp.missing, db) ∧
     signup db a (some "") c d = (SignupResp.missing, db) ∧
     signup db a none c d = (SignupResp.missing, db) ∧
     signup db a b (some "") d = (SignupResp.missing, db) ∧
     signup db a b none d = (SignupResp.missing, db) ∧
     signup db a b c (some "") = (SignupResp.missing, db) ∧
     signup db a b c none = (SignupResp.missing, db)) ∧
    (login db (some "") b fault = (LoginResp.missing, db) ∧
     login db none b fault = (LoginResp.missing, db) ∧
     login db a (some "") fault = (LoginResp.missing, db) ∧
     login db a none fault = (LoginResp.missing, db)) ∧
    (srDashboardP0 db (some "") b c d a = (PublishResp.missing, db) ∧
     srDashboardP0 db none b c d a = (PublishResp.missing, db) ∧
     srDashboardP0 db a (some "") c d b = (PublishResp.missing, db) ∧
     srDashboardP0 db a none c d b = (PublishResp.missing, db) ∧
     srDashboardP0 db a b (some "") d c = (PublishResp.missing, db) ∧
     srDashboardP0 db a b none d c = (PublishResp.missing, db) ∧
     srDashboardP0 db a b c (some "") d = (PublishResp.missing, db) ∧
     srDashboardP0 db a b c none d = (PublishResp.missing, db) ∧
     srDashboardP0 db a b c d (some "") = (PublishResp.missing, db) ∧
     srDashboardP0 db a b c d none = (PublishResp.missing, db)) ∧
    (jrdashboardP0 db (some "") (some "") fault = (SearchResp.missingFilters, db) ∧
     jrdashboardP0 db none (some "") fault = (SearchResp.missingFilters, db) ∧
     jrdashboardP0 db (some "") none fault = (SearchResp.missingFilters, db) ∧
     jrdashboardP0 db none none fault = (SearchResp.missingFilters, db)) ∧
    (signupStatus SignupResp.missing = 400 ∧
     loginStatus LoginResp.missing = 400 ∧
     publishStatus PublishResp.missing = 400 ∧
     searchStatus SearchResp.missingFilters = 400) := by
  refine ⟨⟨?_, ?_, ?_, ?_, ?_, ?_, ?_, ?_⟩, ⟨?_, ?_, ?_, ?_⟩,
    ⟨?_, ?_, ?_, ?_, ?_, ?_, ?_, ?_, ?_, ?_⟩, ⟨?_, ?_, ?_, ?_⟩,
    ⟨rfl, rfl, rfl, rfl⟩⟩ <;>
  simp [signup, login, srDashboardP0, jrdashboardP0, falsy]

/-- C10: `/login`, `/Jrdashboard` and `/explore` (in both variants) are
read-only — for every input and every outcome, including validation failure,
not-found and store fault, they return the database unchanged. -/
theorem readonly_handlers_preserve_db (db : Db)
    (e p sn sub t1 t2 : Option String) (fault : Bool) :
    (login db e p fault).2 = db ∧
    (jrdashboardP0 db sn sub fault).2 = db ∧
    (exploreP0 db t1 fault).2 = db ∧
    (jrdashboardV1 db sn sub fault).2 = db ∧
    (exploreV1 db t2 fault).2 = db := by
  refine ⟨?_, ?_, ?_, ?_, ?_⟩
  · unfold login
    repeat' first | rfl | split | dsimp only
  · unfold jrdashboardP0
    repeat' first | rfl | split | dsimp only
  · unfold exploreP0
    repeat' first | rfl | split | dsimp only
  · unfold jrdashboardV1
    repeat' first | rfl | split | dsimp only
  · unfold exploreV1
    repeat' first | rfl | split | dsimp only

/-- C4: `/login` (identical in both variants) distinguishes its failures:
an unknown email yields the 400 "User does not exist." response, and an
existing account whose stored hash does not verify against the supplied
password yields the 401 "Incorrect password." response; the two responses
are distinct. -/
theorem login_error_taxonomy (db : Db) (e p : Option String)
    (he : falsy e = false) (hp : falsy p = false) :
    (db.users.filter (fun u => u.email == e.getD "") = [] →
      (login db e p false).1 = LoginResp.notFound ∧
      loginStatus (login db e p false).1 = 400) ∧
    (∀ u us, db.users.filter (fun u2 => u2.email == e.getD "") = u :: us →
      bcryptCompare (p.getD "") u.password = false →
      (login db e p false).1 = LoginResp.wrongPassword ∧
      loginStatus (login db e p false).1 = 401) ∧
    LoginResp.notFound ≠ LoginResp.wrongPassword := by
  refine ⟨?_, ?_, by decide⟩
  · intro hnone
    simp [login, he, hp, hnone, loginStatus]
  · intro u us hcons hcmp
    simp [login, he, hp, hcons, hcmp, loginStatus]

/-- Witness for C4: in a store holding only the account
`bob@x.com` (hash of `goodpw`), logging in as the unknown `carol@x.com`
is a not-found failure and logging in as `bob@x.com` with the wrong
password `badpw` is an invalid-credentials failure. -/
theorem login_error_taxonomy_witness :
    falsy (some "carol@x.com") = false ∧ falsy (some "badpw") = false ∧
    (login dbUser (some "carol@x.com") (some "badpw") false).1 =
      LoginResp.notFound ∧
    (login dbUser (some "bob@x.com") (some "badpw") false).1 =
      LoginResp.wrongPassword := by
  refine ⟨by decide, by decide, ?_, ?_⟩
  · exact ((login_error_taxonomy dbUser (some "carol@x.com") (some "badpw")
      (by decide) (by decide)).1 (by decide)).1
  · exact ((login_error_taxonomy dbUser (some "bob@x.com") (some "badpw")
      (by decide) (by decide)).2.1
      ⟨1, "bob", "bob@x.com", bcryptHash "goodpw", "senior"⟩ []
      (by decide) (by decide)).1

/-- C5: `/signup` (identical in both variants) with all four fields
non-falsy: when no account has the email, exactly one row (holding the
hashed password) is appended and 201 is returned; when an account with the
email exists, the 400 duplicate-email response is returned and the database
is unchanged. -/
theorem signup_contract (db : Db) (n e p r : Option String)
    (hn : falsy n = false) (he : falsy e = false) (hp : falsy p = false)
    (hr : falsy r = false) :
    (db.users.filter (fun u => u.email == e.getD "") = [] →
      (signup db n e p r).1 = SignupResp.created ∧
      signupStatus (signup db n e p r).1 = 201 ∧
      (signup db n e p r).2.users =
        db.users ++
          [⟨db.nextUserId, n.getD "", e.getD "", bcryptHash (p.getD ""),
            r.getD ""⟩] ∧
      (signup db n e p r).2.files = db.files) ∧
    (db.users.filter (fun u => u.email == e.getD "") ≠ [] →
      (signup db n e p r).1 = SignupResp.duplicateEmail ∧
      signupStatus (signup db n e p r).1 = 400 ∧
      (signup db n e p r).2 = db) := by
  constructor
  · intro hnone
    simp [signup, hn, he, hp, hr, hnone, signupStatus]
  · intro hdup
    have hlen : (db.users.filter (fun u => u.email == e.getD "")).length > 0 :=
      List.length_pos.mpr hdup
    simp [signup, hn, he, hp, hr, hlen, signupStatus]

/-- Witness for C5: signing `dan@x.com` up against the empty store succeeds,
and signing `bob@x.com` up against a store already holding that email is
rejected as duplicate. -/
theorem signup_contract_witness :
    falsy (some "dan") = false ∧
    (signup db0 (some "dan") (some "dan@x.com") (some "pw") (some "junior")).1 =
      SignupResp.created ∧
    (signup dbUser (some "bob") (some "bob@x.com") (some "pw")
      (some "senior")).1 = SignupResp.duplicateEmail := by
  refine ⟨by decide, ?_, ?_⟩
  · exact ((signup_contract db0 (some "dan") (some "dan@x.com") (some "pw")
      (some "junior") (by decide) (by decide) (by decide) (by decide)).1
      (by decide)).1
  · exact ((signup_contract dbUser (some "bob") (some "bob@x.com") (some "pw")
      (some "senior") (by decide) (by decide) (by decide) (by decide)).2
      (by decide)).1

/-- C1 (amended): in the `part_000` variant, whose lookup key is
`(username, password, subject)`, publishing with non-empty fields to a triple
with no existing record creates one record with link collection exactly
`[driveLink]`, and a second publish to the same triple (same supplied
password) appends the new drive link and overwrites the other-link field,
leaving `links = [linkA, linkB]` and the second other-link value. -/
theorem srDashboardP0_append (db : Db) (u p s la o1 lb o2 : String)
    (hu : u ≠ "") (hp : p ≠ "") (hs : s ≠ "") (hla : la ≠ "") (ho1 : o1 ≠ "")
    (hlb : lb ≠ "") (ho2 : o2 ≠ "")
    (hnone : db.files.filter (srMatchP0 u p s) = []) :
    (((srDashboardP0 db (some u) (some p) (some s) (some la)
        (some o1)).2.files.filter (srMatchP0 u p s)).map fun f =>
      (f.filePaths, f.links)) = [([la], o1)] ∧
    (((srDashboardP0
        (srDashboardP0 db (some u) (some p) (some s) (some la) (some o1)).2
        (some u) (some p) (some s) (some lb) (some o2)).2.files.filter
          (srMatchP0 u p s)).map fun f => (f.filePaths, f.links)) =
      [([la, lb], o2)] := by
  have hrow : srMatchP0 u p s ⟨db.nextFileId, u, p, [la], o1, s⟩ = true := by
    simp [srMatchP0]
  have h1 : (srDashboardP0 db (some u) (some p) (some s) (some la)
      (some o1)).2 =
      { db with
        files := db.files ++ [⟨db.nextFileId, u, p, [la], o1, s⟩],
        nextFileId := db.nextFileId + 1 } := by
    simp [srDashboardP0, falsy, hu, hp, hs, hla, ho1, hnone]
  have hflt1 : (db.files ++
      [(⟨db.nextFileId, u, p, [la], o1, s⟩ : FileRow)]).filter
        (srMatchP0 u p s) = [⟨db.nextFileId, u, p, [la], o1, s⟩] := by
    rw [List.filter_append, hnone]
    simp [List.filter_cons, hrow]
  constructor
  · rw [h1]
    simp only [hflt1, List.map_cons, List.map_nil]
  · have hupd : ((db.files ++
        [(⟨db.nextFileId, u, p, [la], o1, s⟩ : FileRow)]).map fun f =>
          if srMatchP0 u p s f then
            { f with filePaths := f.filePaths ++ [lb], links := o2 }
          else f) =
        db.files ++ [⟨db.nextFileId, u, p, [la] ++ [lb], o2, s⟩] := by
      rw [List.map_append, map_keep_of_filter_nil _ _ _ hnone]
      simp [hrow]
    have h2 : (srDashboardP0
        { db with
          files := db.files ++ [⟨db.nextFileId, u, p, [la], o1, s⟩],
          nextFileId := db.nextFileId + 1 }
        (some u) (some p) (some s) (some lb) (some o2)).2 =
        { db with
          files := db.files ++ [⟨db.nextFileId, u, p, [la] ++ [lb], o2, s⟩],
          nextFileId := db.nextFileId + 1 } := by
      simp [srDashboardP0, falsy, hu, hp, hs, hlb, ho2, hflt1, hupd]
    rw [h1, h2, List.filter_append, hnone]
    simp [List.filter_cons, srMatchP0]

/-- Witness for C1 (amended): concrete run of the two publishes from the
spec's example against the empty store in the `part_000` variant. -/
theorem srDashboardP0_append_witness :
    ("alice" : String) ≠ "" ∧
    db0.files.filter (srMatchP0 "alice" "pw" "math") = [] ∧
    (((srDashboardP0
        (srDashboardP0 db0 (some "alice") (some "pw") (some "math")
          (some "linkA") (some "other1")).2
        (some "alice") (some "pw") (some "math") (some "linkB")
          (some "other2")).2.files.filter
        (srMatchP0 "alice" "pw" "math")).map fun f =>
      (f.filePaths, f.links)) = [(["linkA", "linkB"], "other2")] := by
  refine ⟨by decide, by decide, ?_⟩
  exact (srDashboardP0_append db0 "alice" "pw" "math" "linkA" "other1"
    "linkB" "other2" (by decide) (by decide) (by decide) (by decide)
    (by decide) (by decide) (by decide) (by decide)).2

/-- C3 (amended): the `server.js` variant does locate the existing record by
`(owner, subjectKey)` alone — for any two publishes with the same owner and
subject, regardless of the supplied passwords, the second finds and updates
the record created by the first, leaving exactly one record for that pair.
(The `part_000` variant instead keys the lookup on
`(owner, password, subjectKey)`; see the counterexample.) -/
theorem srDashboardV1_single_record (db : Db) (u p1 p2 s la o1 lb o2 : String)
    (hu : u ≠ "") (hp1 : p1 ≠ "") (hp2 : p2 ≠ "") (hs : s ≠ "")
    (hla : la ≠ "") (ho1 : o1 ≠ "") (hlb : lb ≠ "") (ho2 : o2 ≠ "")
    (hnone : db.files.filter (srMatchV1 u s) = []) :
    ((srDashboardV1
        (srDashboardV1 db (some u) (some p1) (some s) (some la) (some o1)).2
        (some u) (some p2) (some s) (some lb) (some o2)).2.files.filter
      (srMatchV1 u s)).length = 1 := by
  have hrow : srMatchV1 u s
      ⟨db.nextFileId, u, bcryptHash p1, [la], o1, s⟩ = true := by
    simp [srMatchV1]
  have h1 : (srDashboardV1 db (some u) (some p1) (some s) (some la)
      (some o1)).2 =
      { db with
        files := db.files ++ [⟨db.nextFileId, u, bcryptHash p1, [la], o1, s⟩],
        nextFileId := db.nextFileId + 1 } := by
    simp [srDashboardV1, falsy, hu, hp1, hs, hla, ho1, hnone]
  have hflt1 : (db.files ++
      [(⟨db.nextFileId, u, bcryptHash p1, [la], o1, s⟩ : FileRow)]).filter
        (srMatchV1 u s) =
      [⟨db.nextFileId, u, bcryptHash p1, [la], o1, s⟩] := by
    rw [List.filter_append, hnone]
    simp [List.filter_cons, hrow]
  have hupd : ((db.files ++
      [(⟨db.nextFileId, u, bcryptHash p1, [la], o1, s⟩ : FileRow)]).map
        fun f =>
          if srMatchV1 u s f then { f with filePaths := [lb], links := o2 }
          else f) =
      db.files ++ [⟨db.nextFileId, u, bcryptHash p1, [lb], o2, s⟩] := by
    rw [List.map_append, map_keep_of_filter_nil _ _ _ hnone]
    simp [hrow]
  have h2 : (srDashboardV1
      { db with
        files := db.files ++ [⟨db.nextFileId, u, bcryptHash p1, [la], o1, s⟩],
        nextFileId := db.nextFileId + 1 }
      (some u) (some p2) (some s) (some lb) (some o2)).2 =
      { db with
        files := db.files ++ [⟨db.nextFileId, u, bcryptHash p1, [lb], o2, s⟩],
        nextFileId := db.nextFileId + 1 } := by
    simp [srDashboardV1, falsy, hu, hp2, hs, hlb, ho2, hflt1, hupd]
  rw [h1, h2, List.filter_append, hnone]
  simp [List.filter_cons, srMatchV1]

/-- Witness for C3 (amended): two publishes to `("alice", "math")` with
different passwords in the `server.js` variant leave exactly one record for
that pair. -/
theorem srDashboardV1_single_record_witness :
    ("alice" : String) ≠ "" ∧
    db0.files.filter (srMatchV1 "alice" "math") = [] ∧
    ((srDashboardV1
        (srDashboardV1 db0 (some "alice") (some "pw1") (some "math")
          (some "linkA") (some "other1")).2
        (some "alice") (some "pw2") (some "math") (some "linkB")
          (some "other2")).2.files.filter
      (srMatchV1 "alice" "math")).length = 1 := by
  refine ⟨by decide, by decide, ?_⟩
  exact srDashboardV1_single_record db0 "alice" "pw1" "pw2" "math" "linkA"
    "other1" "linkB" "other2" (by decide) (by decide) (by decide) (by decide)
    (by decide) (by decide) (by decide) (by decide) (by decide)

/-- The dynamically built `/Jrdashboard` predicate of `part_000` matches a
row exactly when the row satisfies every provided (truthy) filter. -/
theorem jrMatchP0_eq_true_iff (sn sub : Option String) (f : FileRow) :
    jrMatchP0 sn sub f = true ↔
      (∀ s, sn = some s → s ≠ "" → f.username = s) ∧
      (∀ t, sub = some t → t ≠ "" → f.subject = t) := by
  cases sn with
  | none =>
    cases sub with
    | none => simp [jrMatchP0, falsy]
    | some t => by_cases ht : t = "" <;> simp [jrMatchP0, falsy, ht]
  | some s =>
    cases sub with
    | none => by_cases hs : s = "" <;> simp [jrMatchP0, falsy, hs]
    | some t =>
      by_cases hs : s = "" <;> by_cases ht : t = "" <;>
        simp [jrMatchP0, falsy, hs, ht]

/-- The optional `/explore` predicate of `part_000` matches a row exactly
when the row satisfies the provided (truthy) subject filter, if any. -/
theorem exploreMatchP0_eq_true_iff (sub : Option String) (f : FileRow) :
    exploreMatchP0 sub f = true ↔
      (∀ t, sub = some t → t ≠ "" → f.subject = t) := by
  cases sub with
  | none => simp [exploreMatchP0, falsy]
  | some t => by_cases ht : t = "" <;> simp [exploreMatchP0, falsy, ht]

/-- C6 (amended): the `part_000` variant's `/Jrdashboard` rejects a request
with both filters absent/empty with the 400 validation error, and otherwise
combines the provided filters with logical AND — any returned list consists
exactly of the stored records matching every provided filter, and a match
does exist whenever some stored record satisfies all provided filters.
(The `server.js` variant instead requires `seniorname` and ignores
`subjectname`; see the counterexample.) -/
theorem jrdashboardP0_and_semantics (db : Db) (sn sub : Option String) :
    (falsy sn = true ∧ falsy sub = true →
      (jrdashboardP0 db sn sub false).1 = SearchResp.missingFilters ∧
      searchStatus (jrdashboardP0 db sn sub false).1 = 400) ∧
    (∀ rows, (jrdashboardP0 db sn sub false).1 = SearchResp.files rows →
      ∀ f, f ∈ rows ↔
        f ∈ db.files ∧
        (∀ s, sn = some s → s ≠ "" → f.username = s) ∧
        (∀ t, sub = some t → t ≠ "" → f.subject = t)) ∧
    (¬ (falsy sn = true ∧ falsy sub = true) →
      (∃ f ∈ db.files,
        (∀ s, sn = some s → s ≠ "" → f.username = s) ∧
        (∀ t, sub = some t → t ≠ "" → f.subject = t)) →
      ∃ rows, (jrdashboardP0 db sn sub false).1 = SearchResp.files rows) := by
  refine ⟨?_, ?_, ?_⟩
  · rintro ⟨h1, h2⟩
    simp [jrdashboardP0, h1, h2, searchStatus]
  · intro rows hrows f
    by_cases hmiss : (falsy sn && falsy sub) = true
    · simp [jrdashboardP0, hmiss] at hrows
    · by_cases hlen : (db.files.filter (jrMatchP0 sn sub)).length = 0
      · simp [jrdashboardP0, hmiss, hlen] at hrows
      · simp [jrdashboardP0, hmiss, hlen] at hrows
        rw [← hrows, List.mem_filter]
        exact and_congr_right fun _ => jrMatchP0_eq_true_iff sn sub f
  · intro hne hex
    obtain ⟨f, hf, hcond⟩ := hex
    have hmem : f ∈ db.files.filter (jrMatchP0 sn sub) :=
      List.mem_filter.mpr ⟨hf, (jrMatchP0_eq_true_iff sn sub f).mpr hcond⟩
    have hlen : ¬ (db.files.filter (jrMatchP0 sn sub)).length = 0 := by
      intro h0
      rw [List.length_eq_zero] at h0
      rw [h0] at hmem
      exact absurd hmem (List.not_mem_nil f)
    have hmiss : ¬ (falsy sn && falsy sub) = true := by
      rw [Bool.and_eq_true]
      exact hne
    exact ⟨db.files.filter (jrMatchP0 sn sub),
      by simp [jrdashboardP0, hmiss, hlen]⟩

/-- C7 (amended): the `part_000` variant's `/explore` with no (truthy)
subject filter returns all stored records whenever the table is non-empty,
and any list it returns consists exactly of the stored records matching the
provided subject filter, a match existing whenever some stored record has
that subject.  (The `server.js` variant ignores the `subjectname` parameter
entirely; see the counterexample.) -/
theorem exploreP0_filter_semantics (db : Db) (sub : Option String) :
    (∀ rows, (exploreP0 db sub false).1 = SearchResp.files rows →
      ∀ f, f ∈ rows ↔
        f ∈ db.files ∧ (∀ t, sub = some t → t ≠ "" → f.subject = t)) ∧
    ((∃ f ∈ db.files, ∀ t, sub = some t → t ≠ "" → f.subject = t) →
      ∃ rows, (exploreP0 db sub false).1 = SearchResp.files rows) ∧
    (falsy sub = true → db.files ≠ [] →
      (exploreP0 db sub false).1 = SearchResp.files db.files) := by
  refine ⟨?_, ?_, ?_⟩
  · intro rows hrows f
    by_cases hlen : (db.files.filter (exploreMatchP0 sub)).length = 0
    · simp [exploreP0, hlen] at hrows
    · simp [exploreP0, hlen] at hrows
      rw [← hrows, List.mem_filter]
      exact and_congr_right fun _ => exploreMatchP0_eq_true_iff sub f
  · intro hex
    obtain ⟨f, hf, hcond⟩ := hex
    have hmem : f ∈ db.files.filter (exploreMatchP0 sub) :=
      List.mem_filter.mpr ⟨hf, (exploreMatchP0_eq_true_iff sub f).mpr hcond⟩
    have hlen : ¬ (db.files.filter (exploreMatchP0 sub)).length = 0 := by
      intro h0
      rw [List.length_eq_zero] at h0
      rw [h0] at hmem
      exact absurd hmem (List.not_mem_nil f)
    exact ⟨db.files.filter (exploreMatchP0 sub), by simp [exploreP0, hlen]⟩
  · intro hfalsy hne
    have hall : db.files.filter (exploreMatchP0 sub) = db.files :=
      List.filter_eq_self.mpr fun f _ => by simp [exploreMatchP0, hfalsy]
    have hlen : ¬ (db.files.filter (exploreMatchP0 sub)).length = 0 := by
      rw [hall, List.length_eq_zero]
      exact hne
    simp [exploreP0, hlen, hall, hne]

/-- C8: in the `part_000` variant, a `/Jrdashboard` or `/explore` request
whose filters match zero stored records yields the 404 no-records response,
while a store fault yields the 500 response; the two outcomes are distinct
responses with distinct status codes. -/
theorem search_no_match_is_404 (db : Db) (sn sub t1 t2 : Option String)
    (h : ¬ (falsy sn = true ∧ falsy sub = true)) :
    (db.files.filter (jrMatchP0 sn sub) = [] →
      (jrdashboardP0 db sn sub false).1 = SearchResp.notFound ∧
      searchStatus (jrdashboardP0 db sn sub false).1 = 404) ∧
    (db.files.filter (exploreMatchP0 t1) = [] →
      (exploreP0 db t1 false).1 = SearchResp.notFound ∧
      searchStatus (exploreP0 db t1 false).1 = 404) ∧
    ((jrdashboardP0 db sn sub true).1 = SearchResp.dbError ∧
      searchStatus (jrdashboardP0 db sn sub true).1 = 500) ∧
    ((exploreP0 db t2 true).1 = SearchResp.dbError ∧
      searchStatus (exploreP0 db t2 true).1 = 500) ∧
    SearchResp.notFound ≠ SearchResp.dbError := by
  have hmiss : ¬ (falsy sn && falsy sub) = true := by
    rw [Bool.and_eq_true]
    exact h
  refine ⟨?_, ?_, ?_, ?_, by decide⟩
  · intro hnil
    simp [jrdashboardP0, hmiss, hnil, searchStatus]
  · intro hnil
    simp [exploreP0, hnil, searchStatus]
  · simp [jrdashboardP0, hmiss, searchStatus]
  · simp [exploreP0, searchStatus]

/-- Witness for C8: searching the empty store for the senior `"nosuch"`
yields 404 at the junior dashboard, exploring the empty store yields 404,
and faults yield 500. -/
theorem search_no_match_is_404_witness :
    ¬ (falsy (some "nosuch") = true ∧ falsy none = true) ∧
    (jrdashboardP0 db0 (some "nosuch") none false).1 = SearchResp.notFound ∧
    (exploreP0 db0 (some "math") false).1 = SearchResp.notFound ∧
    (jrdashboardP0 db0 (some "nosuch") none true).1 = SearchResp.dbError := by
  refine ⟨by decide, ?_, ?_, ?_⟩
  · exact ((search_no_match_is_404 db0 (some "nosuch") none (some "math")
      none (by decide)).1 (by decide)).1
  · exact ((search_no_match_is_404 db0 (some "nosuch") none (some "math")
      none (by decide)).2.1 (by decide)).1
  · exact ((search_no_match_is_404 db0 (some "nosuch") none (some "math")
      none (by decide)).2.2.1).1
